import Mathlib

/-!
# Verification of the SOCKS5 proxy implementation

Shallow embedding of the SOCKS5 client/server implementation
(`src/utils.rs`, `src/client.rs`, `src/server.rs`).  Bytes are modelled
as `Nat` values below 256, strings as their UTF-8 byte lists, the
mutable write buffer as an explicit capacity plus the list of bytes
written so far, and every fallible or panicking operation returns an
explicit outcome value.  Blocking reads from the peer are modelled as
functions of the list of bytes the peer sends.
-/

namespace Socks5

/-! ## Protocol constants (`utils.rs`) -/

def SOCKS_VER : Nat := 0x05

def SOCKS_RSV : Nat := 0x00

def SOCKS_COMMAND_CONNECT : Nat := 0x01

def SOCKS_ADDR_IPV4 : Nat := 0x01

def SOCKS_ADDR_IPV6 : Nat := 0x04

def SOCKS_ADDR_DOMAINNAME : Nat := 0x03

/-! ## Error and reply-code taxonomy (`utils.rs`) -/

/-- The `SocksError` reply-code enumeration of `utils.rs` (9 wire codes
`SUCCESS = 0x00` .. `ADDRESS = 0x08` plus the catch-all `OTHOR`). -/
inductive SocksError
  | SUCCESS
  | FAIL
  | DENY
  | NETWORK
  | HOST
  | CONNECTION
  | TTL
  | COMMAND
  | ADDRESS
  | OTHOR
  deriving DecidableEq, Repr

/-- Rust discriminant of each variant (`SocksError::X as u8`); `OTHOR`
has the implicit discriminant `0x09`. -/
def SocksError.toCode : SocksError → Nat
  | .SUCCESS => 0x00
  | .FAIL => 0x01
  | .DENY => 0x02
  | .NETWORK => 0x03
  | .HOST => 0x04
  | .CONNECTION => 0x05
  | .TTL => 0x06
  | .COMMAND => 0x07
  | .ADDRESS => 0x08
  | .OTHOR => 0x09

/-- The `impl From<u8> for SocksError` match of `utils.rs`: bytes
`0x01`..`0x08` map to the corresponding variant, everything else
(including `0x00`) falls through to `OTHOR`. -/
def SocksError.fromU8 (code : Nat) : SocksError :=
  if code = 0x01 then .FAIL
  else if code = 0x02 then .DENY
  else if code = 0x03 then .NETWORK
  else if code = 0x04 then .HOST
  else if code = 0x05 then .CONNECTION
  else if code = 0x06 then .TTL
  else if code = 0x07 then .COMMAND
  else if code = 0x08 then .ADDRESS
  else .OTHOR

/-- Client-side error values.  The Rust client reports failures as
`io::Error` values; the constructors record the `io::ErrorKind` (and,
for a rejected CONNECT, the decoded `SocksError` the error wraps). -/
inductive ClientErr
  | connectionAborted
  | connectionRefused
  | invalidInput
  | notImplemented
  | socksReply (e : SocksError)
  | unexpectedEof
  deriving DecidableEq, Repr

/-! ## Authentication methods (`utils.rs`) -/

/-- The `AuthMethod` enumeration; credentials are UTF-8 byte lists. -/
inductive AuthMethod
  | noAuth
  | userPass (cred : Option (List Nat × List Nat))
  | noAvailable
  deriving DecidableEq, Repr

def AuthMethod.to_code : AuthMethod → Nat
  | .noAuth => 0x00
  | .userPass _ => 0x02
  | .noAvailable => 0xFF

/-- `AuthMethod::from_code`: unrecognized codes give an `io::Error` of
kind `ConnectionRefused`. -/
def AuthMethod.from_code (code : Nat) : Except ClientErr AuthMethod :=
  if code = 0x00 then .ok .noAuth
  else if code = 0x02 then .ok (.userPass none)
  else if code = 0xFF then .ok .noAvailable
  else .error .connectionRefused

/-! ## Destinations (`utils.rs`) -/

/-- An IPv4 socket address: `ip().octets()` (4 bytes) and the port. -/
structure SockAddrV4 where
  octets : List Nat
  port : Nat
  deriving DecidableEq, Repr

/-- An IPv6 socket address: `ip().octets()` (16 bytes) and the port. -/
structure SockAddrV6 where
  octets : List Nat
  port : Nat
  deriving DecidableEq, Repr

/-- `std::net::SocketAddr`. -/
inductive SockAddr
  | v4 (a : SockAddrV4)
  | v6 (a : SockAddrV6)
  deriving DecidableEq, Repr

/-- The `Addr` destination sum type; a `HostnamePort` carries the UTF-8
bytes of the Rust `String` "hostname:port". -/
inductive Addr
  | sockAddr (a : SockAddr)
  | hostnamePort (text : List Nat)
  deriving DecidableEq, Repr

/-! ## The write buffer (`utils.rs`, `Buffer`)

The Rust `Buffer` wraps a borrowed `&mut [u8]` together with a write
position; writes are strictly sequential from position 0, so the state
is captured by the capacity of the borrowed array and the list of bytes
written so far (`data.length` is the Rust `pos`, and `content` is the
prefix `buffer[..pos]`).  An out-of-bounds write (`none`) is a Rust
slice-indexing panic. -/

structure Buffer where
  capacity : Nat
  data : List Nat
  deriving DecidableEq, Repr

/-- `Buffer::push`: `self.buffer[self.pos] = byte` panics when
`pos >= buffer.len()`. -/
def Buffer.push (b : Buffer) (byte : Nat) : Option Buffer :=
  if b.data.length < b.capacity then some ⟨b.capacity, b.data ++ [byte]⟩ else none

/-- `Buffer::extend`: slicing `self.buffer[self.pos..end]` panics when
`end > buffer.len()`. -/
def Buffer.extend (b : Buffer) (slice : List Nat) : Option Buffer :=
  if b.data.length + slice.length ≤ b.capacity then some ⟨b.capacity, b.data ++ slice⟩
  else none

/-- `Buffer::content`: the written prefix `&buffer[..pos]`. -/
def Buffer.content (b : Buffer) : List Nat := b.data

/-! ## Big-endian 16-bit integers -/

/-- `u16::to_be_bytes` (the value is a `u16`, below 65536). -/
def u16be (p : Nat) : List Nat := [p / 256, p % 256]

/-- `u16::from_be_bytes`. -/
def beU16 (hi lo : Nat) : Nat := hi * 256 + lo

/-! ## Hostname and port text handling (`client.rs`, `parse_dest`) -/

/-- Rust `str::split(":")` on the UTF-8 bytes of a string: since `:`
is ASCII `0x3A` and UTF-8 continuation bytes are all at least `0x80`,
splitting the byte list at `0x3A` bytes matches Rust's char split. -/
def splitOnColon (s : List Nat) : List (List Nat) :=
  s.foldr
    (fun b acc =>
      if b = 0x3A then [] :: acc
      else
        match acc with
        | h :: t => (b :: h) :: t
        | [] => [[b]])
    [[]]

def isDigitByte (b : Nat) : Bool := 0x30 ≤ b && b ≤ 0x39

/-- Rust `str::parse::<u16>()` (via `from_str_radix`): an optional
leading `+` is stripped; a leading `-` is a sign only for signed
types, so for `u16` it stays in the digit stream and fails as an
invalid digit.  What remains must be one or more ASCII digits whose
value fits in `u16` (each step of the fold is checked; since the
accumulator is monotone, that is equivalent to the final value being
at most 65535). -/
def parseU16 (s : List Nat) : Option Nat :=
  match s with
  | [] => none
  | c :: rest =>
    let digits : List Nat := if c = 0x2B then rest else s
    if digits.isEmpty then none
    else if digits.all isDigitByte then
      let v := digits.foldl (fun acc d => acc * 10 + (d - 0x30)) 0
      if v ≤ 65535 then some v else none
    else none

/-! ## Client request serialization (`client.rs`) -/

/-- Outcome of building the CONNECT request: a Rust panic, an early
`io::Error` return, or the completed buffer. -/
inductive EncodeOutcome
  | panic
  | err (e : ClientErr)
  | ok (request : Buffer)
  deriving DecidableEq, Repr

/-- Same outcome with the buffer replaced by the bytes that would be
written to the connection (`request.content()`). -/
inductive BytesOutcome
  | panic
  | err (e : ClientErr)
  | ok (bytes : List Nat)
  deriving DecidableEq, Repr

/-- The `write_addr_binary!` macro: push the ATYP tag, extend with the
address octets, extend with the big-endian port. -/
def write_addr_binary (request : Buffer) (addr_type : Nat) (octets : List Nat)
    (port : Nat) : EncodeOutcome :=
  match request.push addr_type with
  | none => .panic
  | some request =>
    match request.extend octets with
    | none => .panic
    | some request =>
      match request.extend (u16be port) with
      | none => .panic
      | some request => .ok request

/-- `parse_dest` of `client.rs`: append the ATYP/ADDR/PORT encoding of
the destination to the request buffer.  For a hostname destination the
text is split at `:`; a shape other than exactly two pieces and an
unparsable port are `InvalidInput` errors ("bad pattern in
hostname:port"), a hostname longer than 255 bytes is the
`InvalidInput` error "hostname too long". -/
def parse_dest (request : Buffer) (dest : Addr) : EncodeOutcome :=
  match dest with
  | .sockAddr (.v4 a) => write_addr_binary request SOCKS_ADDR_IPV4 a.octets a.port
  | .sockAddr (.v6 a) => write_addr_binary request SOCKS_ADDR_IPV6 a.octets a.port
  | .hostnamePort text =>
    match request.push SOCKS_ADDR_DOMAINNAME with
    | none => .panic
    | some request =>
      match splitOnColon text with
      | [hostname, port] =>
        if hostname.length > 255 then .err .invalidInput
        else
          match request.push hostname.length with
          | none => .panic
          | some request =>
            match request.extend hostname with
            | none => .panic
            | some request =>
              match parseU16 port with
              | none => .err .invalidInput
              | some p =>
                match request.extend (u16be p) with
                | none => .panic
                | some request => .ok request
      | _ => .err .invalidInput

/-- The serialization phase of `PendingConnect::connect`: a fresh
261-byte buffer (`[0u8; 4 + 255 + 2]`), the three header bytes
`[SOCKS_RSV, SOCKS_COMMAND_CONNECT, SOCKS_RSV]`, then `parse_dest`. -/
def buildConnectRequest (dest : Addr) : EncodeOutcome :=
  let buffer : Buffer := ⟨261, []⟩
  match buffer.extend [SOCKS_RSV, SOCKS_COMMAND_CONNECT, SOCKS_RSV] with
  | none => .panic
  | some request => parse_dest request dest

/-- The bytes of the CONNECT request sent by `write_all(request.content())`. -/
def connectRequest (dest : Addr) : BytesOutcome :=
  match buildConnectRequest dest with
  | .panic => .panic
  | .err e => .err e
  | .ok request => .ok request.content

/-! ## Client read side (`client.rs`)

Reads from the proxy are modelled over the list of bytes the proxy
sends; `read_exact` on a stream holding fewer bytes than requested
fails with `io::ErrorKind::UnexpectedEof`. -/

/-- `AsyncReadExt::read_exact` for `n` bytes: the bytes read and the
remaining stream, or an end-of-file error. -/
def readExactC (n : Nat) (input : List Nat) : Except ClientErr (List Nat × List Nat) :=
  if n ≤ input.length then .ok (input.take n, input.drop n) else .error .unexpectedEof

/-- The greeting `PendingHandshake::handshake` writes:
`[SOCKS_VER, 0x01, method.to_code()]` (always one offered method). -/
def clientGreeting (method : AuthMethod) : List Nat :=
  [SOCKS_VER, 0x01, method.to_code]

/-- The read half of `PendingHandshake::handshake` (client): read the
2-byte method-selection reply, check the version byte
(`ConnectionAborted` on mismatch), decode the selected method with
`AuthMethod::from_code` (`ConnectionRefused` on an unrecognized code),
reject `NoAvailable` (`ConnectionRefused`) and a selected method whose
code differs from the offered one (`ConnectionAborted`).  Returns the
unread remainder of the stream. -/
def clientHandshake (method : AuthMethod) (input : List Nat) :
    Except ClientErr (List Nat) :=
  match readExactC 2 input with
  | .error e => .error e
  | .ok (buffer, rest) =>
    let b0 := buffer.getD 0 0
    let b1 := buffer.getD 1 0
    if b0 ≠ SOCKS_VER then .error .connectionAborted
    else
      match AuthMethod.from_code b1 with
      | .error e => .error e
      | .ok auth =>
        match auth with
        | .noAvailable => .error .connectionRefused
        | _ =>
          if auth.to_code ≠ method.to_code then .error .connectionAborted
          else .ok rest

/-- `PendingAuthenticate::authenticate` (client): `NoAuth` passes
through; anything else is the `Other`-kind error
"authenticate method .. not implemented". -/
def clientAuthenticate (auth : AuthMethod) : Except ClientErr Unit :=
  match auth with
  | .noAuth => .ok ()
  | _ => .error .notImplemented

/-- The client negotiation sequence of `client::new`: handshake then
authenticate; success means the connection reached phase
`PendingConnect` (handshake and authentication complete). -/
def clientNegotiate (method : AuthMethod) (input : List Nat) :
    Except ClientErr (List Nat) :=
  match clientHandshake method input with
  | .error e => .error e
  | .ok rest =>
    match clientAuthenticate method with
    | .error e => .error e
    | .ok _ => .ok rest

/-- `PendingConnect::extract_address`: consume the BND.ADDR/BND.PORT
bytes of a reply according to the ATYP.  Returns the result together
with the number of bytes consumed from the stream (on end-of-file,
`read_exact` consumes everything available). -/
def extract_address (addr_type : Nat) (input : List Nat) :
    Except ClientErr Unit × Nat :=
  if addr_type = SOCKS_ADDR_IPV4 then
    if 4 + 2 ≤ input.length then (.ok (), 4 + 2)
    else (.error .unexpectedEof, input.length)
  else if addr_type = SOCKS_ADDR_IPV6 then
    if 16 + 2 ≤ input.length then (.ok (), 16 + 2)
    else (.error .unexpectedEof, input.length)
  else if addr_type = SOCKS_ADDR_DOMAINNAME then
    match input with
    | [] => (.error .unexpectedEof, 0)
    | len :: rest =>
      if len + 2 ≤ rest.length then (.ok (), 1 + (len + 2))
      else (.error .unexpectedEof, input.length)
  else (.error .connectionAborted, 0)

/-- The read half of `PendingConnect::connect`: read the 4-byte reply
header, check version and reserved bytes (`ConnectionAborted`), then —
if the reply code is not `SUCCESS` — return the typed error
`SocksError::from(header[1])` immediately; only on a success code is
`extract_address` reached.  The second component is the total number
of reply bytes consumed from the stream. -/
def clientReadConnectReply (input : List Nat) : Except ClientErr Unit × Nat :=
  if input.length < 4 then (.error .unexpectedEof, input.length)
  else
    let header := input.take 4
    let rest := input.drop 4
    let h0 := header.getD 0 0
    let h1 := header.getD 1 0
    let h2 := header.getD 2 0
    let h3 := header.getD 3 0
    if h0 ≠ SOCKS_VER ∨ h2 ≠ SOCKS_RSV then (.error .connectionAborted, 4)
    else if h1 ≠ SocksError.toCode .SUCCESS then
      (.error (.socksReply (SocksError.fromU8 h1)), 4)
    else
      match extract_address h3 rest with
      | (.ok _, n) => (.ok (), 4 + n)
      | (.error e, n) => (.error e, 4 + n)

/-! ## UTF-8 validity (`std::str::from_utf8` in `server.rs`) -/

def isCont (b : Nat) : Bool := 0x80 ≤ b && b < 0xC0

/-- Validity of a byte list as UTF-8 (what `std::str::from_utf8`
checks): ASCII, and 2/3/4-byte sequences with the standard lead-byte
ranges, continuation bytes, no overlong encodings, no surrogates, and
nothing above `U+10FFFF`. -/
def isValidUtf8 : List Nat → Bool
  | [] => true
  | b :: rest =>
    if b < 0x80 then isValidUtf8 rest
    else if b < 0xC2 then false
    else if b < 0xE0 then
      match rest with
      | c1 :: r => isCont c1 && isValidUtf8 r
      | [] => false
    else if b < 0xF0 then
      match rest with
      | c1 :: c2 :: r =>
        isCont c1 && isCont c2 && !(b = 0xE0 && c1 < 0xA0) &&
          !(b = 0xED && 0x9F < c1) && isValidUtf8 r
      | _ => false
    else if b < 0xF5 then
      match rest with
      | c1 :: c2 :: c3 :: r =>
        isCont c1 && isCont c2 && isCont c3 && !(b = 0xF0 && c1 < 0x90) &&
          !(b = 0xF4 && 0x8F < c1) && isValidUtf8 r
      | _ => false
    else false

/-! ## Server state machine (`server.rs`) -/

/-- The `Socks5ServerError` taxonomy (string payloads dropped except
for the looked-up hostname, which `DNSError` carries). -/
inductive ServerErr
  | unknowProtocol
  | unsupportAuth
  | unsupportCommand (cmd : Nat)
  | unknowAddrType (atyp : Nat)
  | invalidHost
  | dnsError (host : List Nat)
  | ioError
  deriving DecidableEq, Repr

/-- Server-side `read_exact`: an end-of-file becomes an `io::Error`,
wrapped as `Socks5ServerError::IOError`. -/
def readExactS (n : Nat) (input : List Nat) : Except ServerErr (List Nat × List Nat) :=
  if n ≤ input.length then .ok (input.take n, input.drop n) else .error .ioError

/-- The method-scanning loop of the server handshake: read `n` single
method bytes, recording whether any equals the configured code. -/
def readMethods (n : Nat) (code : Nat) (input : List Nat) :
    Except ServerErr (Bool × List Nat) :=
  match n with
  | 0 => .ok (false, input)
  | n + 1 =>
    match input with
    | [] => .error .ioError
    | m :: rest =>
      match readMethods n code rest with
      | .error e => .error e
      | .ok (matched, rest2) => .ok (m = code || matched, rest2)

/-- `PendingHandshake::handshake` (server): read `[version, nmethods]`,
reject a wrong version (`UnknowProtocol`), scan the offered methods
for the configured one (`UnsupportAuth` when absent — note no
selection reply is written in that case), else write the selection
reply `[SOCKS_VER, auth.to_code()]`.  Returns the bytes written and
the unread remainder. -/
def serverHandshake (auth : AuthMethod) (input : List Nat) :
    Except ServerErr (List Nat × List Nat) :=
  match readExactS 2 input with
  | .error e => .error e
  | .ok (header, rest) =>
    let h0 := header.getD 0 0
    let n := header.getD 1 0
    if h0 ≠ SOCKS_VER then .error .unknowProtocol
    else
      match readMethods n auth.to_code rest with
      | .error e => .error e
      | .ok (matched, rest2) =>
        if !matched then .error .unsupportAuth
        else .ok ([SOCKS_VER, auth.to_code], rest2)

/-- `PendingAuthenticate::authenticate` (server): only `NoAuth`
completes; anything else is `UnsupportAuth`. -/
def serverAuthenticate (auth : AuthMethod) : Except ServerErr Unit :=
  match auth with
  | .noAuth => .ok ()
  | _ => .error .unsupportAuth

/-- Server negotiation (handshake then authenticate), exposing the
bytes the server wrote (empty when the handshake failed before the
selection reply) alongside the outcome. -/
def serverNegotiate (auth : AuthMethod) (input : List Nat) :
    List Nat × Except ServerErr (List Nat) :=
  match serverHandshake auth input with
  | .error e => ([], .error e)
  | .ok (written, rest) =>
    match serverAuthenticate auth with
    | .error e => (written, .error e)
    | .ok _ => (written, .ok rest)

/-- The external name-resolution service `(host, port).to_socket_addrs()`:
either an `io::Error` (the usual failure mode of `getaddrinfo`) or a
list of resolved addresses (which may be empty). -/
def Dns : Type := List Nat → Nat → Except Unit (List SockAddr)

/-- `PendingCommand::handle_command`: read the 4-byte request header,
check version/reserved (`UnknowProtocol`) and the CONNECT command
(`UnsupportCommand`), then decode the destination per ATYP.  A domain
name is read as length byte, hostname bytes and port, validated as
UTF-8 (`InvalidHost`), then resolved: a resolver `io::Error`
propagates as `IOError` (the `?` on `to_socket_addrs`), an empty
result list is `DNSError`, else the first address is the
destination. -/
def handle_command (dns : Dns) (input : List Nat) :
    Except ServerErr (SockAddr × List Nat) :=
  match readExactS 4 input with
  | .error e => .error e
  | .ok (header, rest) =>
    let h0 := header.getD 0 0
    let h1 := header.getD 1 0
    let h2 := header.getD 2 0
    let h3 := header.getD 3 0
    if h0 ≠ SOCKS_VER ∨ h2 ≠ SOCKS_RSV then .error .unknowProtocol
    else if h1 ≠ SOCKS_COMMAND_CONNECT then .error (.unsupportCommand h1)
    else if h3 = SOCKS_ADDR_IPV4 then
      match readExactS (4 + 2) rest with
      | .error e => .error e
      | .ok (buffer, rest2) =>
        let port := beU16 (buffer.getD 4 0) (buffer.getD 5 0)
        .ok (.v4 ⟨buffer.take 4, port⟩, rest2)
    else if h3 = SOCKS_ADDR_IPV6 then
      match readExactS (16 + 2) rest with
      | .error e => .error e
      | .ok (buffer, rest2) =>
        let port := beU16 (buffer.getD 16 0) (buffer.getD 17 0)
        .ok (.v6 ⟨buffer.take 16, port⟩, rest2)
    else if h3 = SOCKS_ADDR_DOMAINNAME then
      match readExactS 1 rest with
      | .error e => .error e
      | .ok (lenbuf, rest1) =>
        let len := lenbuf.getD 0 0
        match readExactS len rest1 with
        | .error e => .error e
        | .ok (host, rest2) =>
          match readExactS 2 rest2 with
          | .error e => .error e
          | .ok (portbuf, rest3) =>
            let port := beU16 (portbuf.getD 0 0) (portbuf.getD 1 0)
            if isValidUtf8 host then
              match dns host port with
              | .error _ => .error .ioError
              | .ok [] => .error (.dnsError host)
              | .ok (a :: _) => .ok (a, rest3)
            else .error .invalidHost
    else .error (.unknowAddrType h3)

/-- The reply-code selection of `handle_client` for a failed command. -/
def errReplyCode : ServerErr → Nat
  | .dnsError _ => SocksError.toCode .HOST
  | .unsupportCommand _ => SocksError.toCode .COMMAND
  | .unknowAddrType _ => SocksError.toCode .ADDRESS
  | _ => SocksError.toCode .FAIL

/-- The fixed 10-byte command reply of `handle_client`:
`[VER, rep, RSV, ATYP=IPv4, 0, 0, 0, 0, 0, 0]`. -/
def replyTemplate (rep : Nat) : List Nat :=
  [SOCKS_VER, rep, SOCKS_RSV, SOCKS_ADDR_IPV4, 0, 0, 0, 0, 0, 0]

/-- Observable outcome of one server connection: the command reply
written (if the command phase was reached), whether the relay was
started, and the error `handle_client` returned. -/
structure ServerOutcome where
  reply : Option (List Nat)
  relayed : Bool
  failure : Option ServerErr
  deriving Repr

/-- The command/reply/relay part of `handle_client`: a failed command
gets the best-match error reply and no relay; a successful command is
followed by the outbound `TcpStream::connect` attempt (abstracted by
`connectOk`), replying `NETWORK` on failure and `SUCCESS` — then
relaying — on success. -/
def handleClientPostAuth (dns : Dns) (connectOk : SockAddr → Bool)
    (input : List Nat) : ServerOutcome :=
  match handle_command dns input with
  | .error e => ⟨some (replyTemplate (errReplyCode e)), false, some e⟩
  | .ok (addr, _) =>
    if connectOk addr then ⟨some (replyTemplate (SocksError.toCode .SUCCESS)), true, none⟩
    else ⟨some (replyTemplate (SocksError.toCode .NETWORK)), false, some .ioError⟩

/-- `handle_client`: negotiation (handshake + authenticate) followed by
the command phase; negotiation failures abort with no command reply. -/
def handleClient (auth : AuthMethod) (dns : Dns) (connectOk : SockAddr → Bool)
    (input : List Nat) : ServerOutcome :=
  match serverNegotiate auth input with
  | (_, .error e) => ⟨none, false, some e⟩
  | (_, .ok rest) => handleClientPostAuth dns connectOk rest

/-! ## Helper lemmas -/

theorem take_length_append (l r : List Nat) : (l ++ r).take l.length = l := by
  induction l with
  | nil => rfl
  | cons a t ih => simp [ih]

theorem drop_length_append (l r : List Nat) : (l ++ r).drop l.length = r := by
  induction l with
  | nil => rfl
  | cons a t ih => simp [ih]

theorem readExactS_append (l r : List Nat) :
    readExactS l.length (l ++ r) = .ok (l, r) := by
  unfold readExactS
  rw [if_pos (by simp), take_length_append, drop_length_append]

theorem readExactS_of_length (n : Nat) (l r : List Nat) (h : l.length = n) :
    readExactS n (l ++ r) = .ok (l, r) := h ▸ readExactS_append l r

/-- Reduction of the client reply reader on a stream with at least the
4 header bytes. -/
theorem clientReadConnectReply_cons (h0 h1 h2 h3 : Nat) (rest : List Nat) :
    clientReadConnectReply (h0 :: h1 :: h2 :: h3 :: rest) =
      (if h0 ≠ SOCKS_VER ∨ h2 ≠ SOCKS_RSV then (.error .connectionAborted, 4)
       else if h1 ≠ 0 then (.error (.socksReply (SocksError.fromU8 h1)), 4)
       else
         match extract_address h3 rest with
         | (.ok _, n) => (.ok (), 4 + n)
         | (.error e, n) => (.error e, 4 + n)) := by
  simp only [clientReadConnectReply]
  rw [if_neg (by simp only [List.length_cons]; omega)]
  simp [SocksError.toCode]

/-- Reduction of the server negotiation for a NoAuth greeting. -/
theorem serverNegotiate_noAuth_cons (rest : List Nat) :
    serverNegotiate .noAuth (5 :: 1 :: 0 :: rest) = ([5, 0], .ok rest) := by
  unfold serverNegotiate serverHandshake readExactS
  rw [if_pos (by simp only [List.length_cons]; omega)]
  simp [readMethods, serverAuthenticate, AuthMethod.to_code, SOCKS_VER]

/-- Reduction of the client negotiation for a NoAuth selection reply. -/
theorem clientNegotiate_noAuth_cons (rest : List Nat) :
    clientNegotiate .noAuth (5 :: 0 :: rest) = .ok rest := by
  unfold clientNegotiate clientHandshake readExactC clientAuthenticate
  rw [if_pos (by simp only [List.length_cons]; omega)]
  simp [AuthMethod.from_code, AuthMethod.to_code, SOCKS_VER]

/-- Reduction of the client handshake on a 2-byte selection reply with
a remainder. -/
theorem clientHandshake_cons (method : AuthMethod) (b0 b1 : Nat) (rest : List Nat) :
    clientHandshake method (b0 :: b1 :: rest) =
      (if b0 ≠ SOCKS_VER then .error .connectionAborted
       else
         match AuthMethod.from_code b1 with
         | .error e => .error e
         | .ok auth =>
           match auth with
           | .noAvailable => .error .connectionRefused
           | _ =>
             if auth.to_code ≠ method.to_code then .error .connectionAborted
             else .ok rest) := by
  unfold clientHandshake readExactC
  rw [if_pos (by simp only [List.length_cons]; omega)]
  simp

/-- Reduction of the server handshake on a greeting offering exactly
one method byte. -/
theorem serverHandshake_offered (auth : AuthMethod) (code : Nat) (rest : List Nat) :
    serverHandshake auth (5 :: 1 :: code :: rest) =
      (if code = auth.to_code then .ok ([5, auth.to_code], rest)
       else .error .unsupportAuth) := by
  unfold serverHandshake readExactS
  rw [if_pos (by simp only [List.length_cons]; omega)]
  simp only [List.take_succ_cons, List.take_zero, List.drop_succ_cons, List.drop_zero,
    List.getD_cons_zero, List.getD_cons_succ, readMethods]
  rw [if_neg (by simp [SOCKS_VER])]
  by_cases h : code = auth.to_code
  · simp [h, SOCKS_VER]
  · simp [h]

/-- Reduction of the server command handler on a well-formed
domain-name CONNECT request. -/
theorem handle_command_domain (dns : Dns) (host : List Nat) (port : Nat)
    (rest : List Nat) :
    handle_command dns (5 :: 1 :: 0 :: 3 :: host.length :: (host ++ (u16be port ++ rest))) =
      (if isValidUtf8 host then
        match dns host port with
        | .error _ => .error .ioError
        | .ok [] => .error (.dnsError host)
        | .ok (a :: _) => .ok (a, rest)
       else .error .invalidHost) := by
  have hp : port / 256 * 256 + port % 256 = port := by omega
  unfold handle_command
  rw [show readExactS 4 (5 :: 1 :: 0 :: 3 :: host.length :: (host ++ (u16be port ++ rest))) =
      .ok ([5, 1, 0, 3], host.length :: (host ++ (u16be port ++ rest))) from
    readExactS_of_length 4 [5, 1, 0, 3] (host.length :: (host ++ (u16be port ++ rest))) rfl]
  simp only [List.getD_cons_zero, List.getD_cons_succ]
  rw [if_neg (by simp [SOCKS_VER, SOCKS_RSV]), if_neg (by simp [SOCKS_COMMAND_CONNECT]),
    if_neg (by simp [SOCKS_ADDR_IPV4]), if_neg (by simp [SOCKS_ADDR_IPV6]),
    if_pos (by simp [SOCKS_ADDR_DOMAINNAME])]
  rw [show readExactS 1 (host.length :: (host ++ (u16be port ++ rest))) =
      .ok ([host.length], host ++ (u16be port ++ rest)) from
    readExactS_of_length 1 [host.length] _ rfl]
  simp only [List.getD_cons_zero]
  rw [readExactS_append host (u16be port ++ rest)]
  dsimp only
  rw [show readExactS 2 (u16be port ++ rest) =
      .ok ([port / 256, port % 256], rest) from
    readExactS_of_length 2 [port / 256, port % 256] rest rfl]
  simp only [List.getD_cons_zero, List.getD_cons_succ, beU16, hp]

/-! ## C1 -/

/-- C1: the claim states the serialized CONNECT request begins with the
version byte `0x05` followed by `0x01`, `0x00`.  Evaluating the code at
the destination 1.2.3.4:80 shows the request actually begins with
`0x00, 0x01, 0x00`: `PendingConnect::connect` writes `SOCKS_RSV` where
the version byte belongs, so the first byte is `0x00`, not `0x05`. -/
theorem connect_request_starts_with_zero_byte :
    connectRequest (.sockAddr (.v4 ⟨[1, 2, 3, 4], 80⟩)) =
      .ok [0x00, 0x01, 0x00, 0x01, 1, 2, 3, 4, 0, 80] := by decide

/-! ## C2 -/

set_option maxRecDepth 8192 in
/-- C2: the claim states serialization never panics for hostnames of at
most 255 bytes.  Evaluating the code on a destination whose hostname is
exactly 255 bytes (`"aaa…a:80"`) shows the final port write runs past
the fixed 261-byte buffer (4 + 1 + 255 + 2 = 262 bytes are needed), a
Rust slice-indexing panic. -/
theorem connect_request_panics_on_255_byte_hostname :
    connectRequest (.hostnamePort (List.replicate 255 0x61 ++ [0x3A, 0x38, 0x30])) =
      .panic := by decide

/-! ## C3 -/

/-- C3 counterexample: encoding `SUCCESS` to its wire byte `0x00` and
decoding it back yields the catch-all `OTHOR`, not `SUCCESS` — the
`From<u8>` conversion only recognizes `0x01`..`0x08`. -/
theorem success_code_decodes_to_othor :
    SocksError.fromU8 (SocksError.toCode .SUCCESS) = .OTHOR
    ∧ SocksError.fromU8 (SocksError.toCode .SUCCESS) ≠ .SUCCESS := by decide

/-- C3 amended: for each of the reply-code values except `SUCCESS`
(i.e. the eight failure codes `0x01`..`0x08`, and also the catch-all
itself), encoding then decoding is the identity; decoding any byte
outside `0x01`..`0x08` — including `0x00` — yields `OTHOR` and never
panics (the conversion is total). -/
theorem reply_code_roundtrip :
    (∀ e : SocksError, e.toCode ≠ 0 → SocksError.fromU8 e.toCode = e)
    ∧ (∀ b : Nat, b = 0 ∨ 9 ≤ b → SocksError.fromU8 b = .OTHOR) := by
  constructor
  · intro e h
    cases e
    · exact absurd rfl h
    all_goals rfl
  · intro b h
    rcases h with rfl | h
    · rfl
    · unfold SocksError.fromU8
      repeat' split
      all_goals first | rfl | omega

/-- C3 witness: the round trip at `FAIL` and the catch-all at byte 42. -/
theorem reply_code_roundtrip_witness :
    SocksError.fromU8 (SocksError.toCode .FAIL) = .FAIL
    ∧ SocksError.fromU8 42 = .OTHOR :=
  ⟨reply_code_roundtrip.1 .FAIL (by decide), reply_code_roundtrip.2 42 (by omega)⟩

/-! ## C4 -/

/-- C4 counterexample: on the 10-byte reply `05 04 00 01 01 02 03 04 00 50`
(host-unreachable, IPv4 bound address) the client returns the typed
error after consuming only the 4 header bytes — the 6 address+port
bytes the claim says are drained are left unread. -/
theorem failed_reply_not_drained :
    clientReadConnectReply [5, 4, 0, 1, 1, 2, 3, 4, 0, 80] =
      (.error (.socksReply .HOST), 4)
    ∧ (4 : Nat) ≠ 4 + 6 := ⟨rfl, by omega⟩

/-- C4 amended: on a reply with a non-zero reply code the client
returns the typed error carrying the decoded `ReplyCode` immediately,
consuming exactly the 4 header bytes and none of the address+port
bytes; only on a success reply does it consume the remaining bytes
(6 for IPv4 ATYP, 18 for IPv6, `1 + len + 2` for a domain name). -/
theorem connect_reply_consumption (h1 atyp : Nat) (rest : List Nat) :
    (h1 ≠ 0 → clientReadConnectReply (5 :: h1 :: 0 :: atyp :: rest) =
      (.error (.socksReply (SocksError.fromU8 h1)), 4))
    ∧ (6 ≤ rest.length →
        clientReadConnectReply (5 :: 0 :: 0 :: 1 :: rest) = (.ok (), 4 + 6))
    ∧ (18 ≤ rest.length →
        clientReadConnectReply (5 :: 0 :: 0 :: 4 :: rest) = (.ok (), 4 + 18))
    ∧ (∀ len tail, rest = len :: tail → len + 2 ≤ tail.length →
        clientReadConnectReply (5 :: 0 :: 0 :: 3 :: rest) =
          (.ok (), 4 + (1 + (len + 2)))) := by
  refine ⟨?_, ?_, ?_, ?_⟩
  · intro h
    rw [clientReadConnectReply_cons, if_neg (by simp [SOCKS_VER, SOCKS_RSV]),
      if_pos h]
  · intro h
    rw [clientReadConnectReply_cons, if_neg (by simp [SOCKS_VER, SOCKS_RSV]),
      if_neg (by simp)]
    unfold extract_address
    rw [if_pos (by simp [SOCKS_ADDR_IPV4]), if_pos h]
  · intro h
    rw [clientReadConnectReply_cons, if_neg (by simp [SOCKS_VER, SOCKS_RSV]),
      if_neg (by simp)]
    unfold extract_address
    rw [if_neg (by simp [SOCKS_ADDR_IPV4, SOCKS_ADDR_IPV6]),
      if_pos (by simp [SOCKS_ADDR_IPV6]), if_pos h]
  · intro len tail hrest h
    subst hrest
    rw [clientReadConnectReply_cons, if_neg (by simp [SOCKS_VER, SOCKS_RSV]),
      if_neg (by simp)]
    unfold extract_address
    rw [if_neg (by simp [SOCKS_ADDR_IPV4, SOCKS_ADDR_DOMAINNAME]),
      if_neg (by simp [SOCKS_ADDR_IPV6, SOCKS_ADDR_DOMAINNAME]),
      if_pos (by simp [SOCKS_ADDR_DOMAINNAME])]
    simp only []
    rw [if_pos h]

/-- C4 witness: the amended statement evaluated on concrete replies. -/
theorem connect_reply_consumption_witness :
    clientReadConnectReply [5, 4, 0, 1, 9, 9, 9, 9, 9, 9] =
      (.error (.socksReply (SocksError.fromU8 4)), 4)
    ∧ clientReadConnectReply [5, 0, 0, 1, 9, 9, 9, 9, 9, 9] = (.ok (), 4 + 6)
    ∧ clientReadConnectReply
        [5, 0, 0, 4, 9, 9, 9, 9, 9, 9, 9, 9, 9, 9, 9, 9, 9, 9, 9, 9, 9, 9] =
        (.ok (), 4 + 18)
    ∧ clientReadConnectReply [5, 0, 0, 3, 1, 97, 0, 80] = (.ok (), 4 + (1 + (1 + 2))) :=
  ⟨(connect_reply_consumption 4 1 [9, 9, 9, 9, 9, 9]).1 (by decide),
   (connect_reply_consumption 0 0 [9, 9, 9, 9, 9, 9]).2.1 (by decide),
   (connect_reply_consumption 0 0
     [9, 9, 9, 9, 9, 9, 9, 9, 9, 9, 9, 9, 9, 9, 9, 9, 9, 9]).2.2.1 (by decide),
   (connect_reply_consumption 0 0 [1, 97, 0, 80]).2.2.2 1 [97, 0, 80] rfl (by decide)⟩

/-! ## C5 -/

/-- C5: the claim states that a destination encoded by the client and
decoded by the server's command parser round-trips.  Evaluating the
code at the destination 10.0.0.1:443 shows the server rejects the
client's own serialized request with `UnknowProtocol`, whatever the
resolver does: the request's first byte is `0x00` where `handle_command`
demands the version byte `0x05`. -/
theorem client_request_rejected_by_server :
    connectRequest (.sockAddr (.v4 ⟨[10, 0, 0, 1], 443⟩)) =
      .ok [0x00, 0x01, 0x00, 0x01, 10, 0, 0, 1, 1, 187]
    ∧ ∀ dns : Dns,
        handle_command dns [0x00, 0x01, 0x00, 0x01, 10, 0, 0, 1, 1, 187] =
          .error .unknowProtocol := by
  refine ⟨by decide, fun dns => rfl⟩

/-! ## C6 -/

/-- C6 counterexample: with a resolver that fails with an error (the
usual `getaddrinfo` failure mode), the CONNECT request for hostname
"a", port 80 is answered with reply code `0x01` (general failure), not
`0x04`: the `?` on `to_socket_addrs` routes resolver errors to
`IOError` and hence to the `FAIL` reply; only an empty resolution
result reaches `DNSError`. -/
theorem dns_error_gets_general_failure :
    (handleClient .noAuth (fun _ _ => .error ()) (fun _ => true)
        [5, 1, 0, 5, 1, 0, 3, 1, 97, 0, 80]).reply =
      some (replyTemplate (SocksError.toCode .FAIL))
    ∧ replyTemplate (SocksError.toCode .FAIL) ≠
        replyTemplate (SocksError.toCode .HOST) :=
  ⟨rfl, by decide⟩

/-- C6 amended: for a CONNECT request to a hostname, a resolution that
returns an empty address list is answered with reply code `0x04`
(HOST_UNREACHABLE) and the connection is closed without relaying, and
the client surfaces the typed host-unreachable error from that reply;
a resolution attempt that fails with an error is answered with reply
code `0x01` (general failure), likewise without relaying, and the
client surfaces the typed general-failure error. -/
theorem host_unreachable_on_empty_resolution (dns : Dns)
    (connectOk : SockAddr → Bool) (host : List Nat) (port : Nat) (rest : List Nat)
    (hutf : isValidUtf8 host = true) (_hlen : host.length ≤ 255)
    (_hport : port < 65536) :
    (dns host port = .ok [] →
      handleClient .noAuth dns connectOk
          (5 :: 1 :: 0 :: 5 :: 1 :: 0 :: 3 :: host.length ::
            (host ++ (u16be port ++ rest))) =
        ⟨some (replyTemplate (SocksError.toCode .HOST)), false,
          some (.dnsError host)⟩
      ∧ clientReadConnectReply (replyTemplate (SocksError.toCode .HOST)) =
          (.error (.socksReply .HOST), 4))
    ∧ (dns host port = .error () →
      handleClient .noAuth dns connectOk
          (5 :: 1 :: 0 :: 5 :: 1 :: 0 :: 3 :: host.length ::
            (host ++ (u16be port ++ rest))) =
        ⟨some (replyTemplate (SocksError.toCode .FAIL)), false, some .ioError⟩
      ∧ clientReadConnectReply (replyTemplate (SocksError.toCode .FAIL)) =
          (.error (.socksReply .FAIL), 4)) := by
  constructor
  · intro hdns
    refine ⟨?_, rfl⟩
    unfold handleClient handleClientPostAuth
    rw [serverNegotiate_noAuth_cons]
    dsimp only
    rw [handle_command_domain, if_pos hutf, hdns]
    rfl
  · intro hdns
    refine ⟨?_, rfl⟩
    unfold handleClient handleClientPostAuth
    rw [serverNegotiate_noAuth_cons]
    dsimp only
    rw [handle_command_domain, if_pos hutf, hdns]
    rfl

/-- C6 witness: the amended statement at hostname "a", port 80, with a
resolver returning an empty list and one failing with an error. -/
theorem host_unreachable_on_empty_resolution_witness :
    (handleClient .noAuth (fun _ _ => .ok []) (fun _ => true)
        (5 :: 1 :: 0 :: 5 :: 1 :: 0 :: 3 :: [97].length ::
          ([97] ++ (u16be 80 ++ []))) =
      ⟨some (replyTemplate (SocksError.toCode .HOST)), false,
        some (.dnsError [97])⟩
      ∧ clientReadConnectReply (replyTemplate (SocksError.toCode .HOST)) =
          (.error (.socksReply .HOST), 4))
    ∧ (handleClient .noAuth (fun _ _ => .error ()) (fun _ => true)
        (5 :: 1 :: 0 :: 5 :: 1 :: 0 :: 3 :: [97].length ::
          ([97] ++ (u16be 80 ++ []))) =
      ⟨some (replyTemplate (SocksError.toCode .FAIL)), false, some .ioError⟩
      ∧ clientReadConnectReply (replyTemplate (SocksError.toCode .FAIL)) =
          (.error (.socksReply .FAIL), 4)) :=
  ⟨(host_unreachable_on_empty_resolution (fun _ _ => .ok []) (fun _ => true)
      [97] 80 [] (by decide) (by decide) (by decide)).1 rfl,
   (host_unreachable_on_empty_resolution (fun _ _ => .error ()) (fun _ => true)
      [97] 80 [] (by decide) (by decide) (by decide)).2 rfl⟩

/-! ## C7 -/

/-- C7 counterexample: client and server both using `UserPass` — the
same offered and configured method — do not complete negotiation in
the Authenticated phase: the client's authenticate step fails with the
not-implemented error and the server's with `UnsupportAuth`. -/
theorem matching_userpass_fails_both_sides :
    clientNegotiate (.userPass none) [5, 2] = .error .notImplemented
    ∧ (serverNegotiate (.userPass none) [5, 1, 2]).2 = .error .unsupportAuth :=
  ⟨rfl, rfl⟩

/-- C7 amended: if the client offers `NoAuth` and the server is
configured with `NoAuth`, negotiation on both sides completes with the
Authenticated phase (the server echoes `[0x05, 0x00]`).  If both sides
use `UserPass` (code `0x02`), the method-selection handshake succeeds
on both sides — the server echoes `[0x05, 0x02]` and the client
accepts that selection — but the authenticate step then fails on both
sides: `UnsupportAuth` on the server, the not-implemented error on the
client.  If both sides use `NoneAvailable` (code `0xFF`), the server's
handshake echoes `[0x05, 0xFF]` and its authenticate step fails with
`UnsupportAuth`, while the client fails already during the handshake
with `ConnectionRefused` upon seeing the `0xFF` selection.  If the
offered and configured method codes differ, the server fails its
handshake with `UnsupportAuth` and writes no selection reply, so the
client fails reading the missing reply with an end-of-file error. -/
theorem negotiation_agreement (m m2 : AuthMethod)
    (cred : Option (List Nat × List Nat)) (rest rest2 : List Nat) :
    (serverNegotiate .noAuth (clientGreeting .noAuth ++ rest) = ([5, 0], .ok rest))
    ∧ (clientNegotiate .noAuth (5 :: 0 :: rest) = .ok rest)
    ∧ (serverNegotiate (.userPass cred) (clientGreeting (.userPass cred) ++ rest) =
        ([5, 2], .error .unsupportAuth)
      ∧ clientHandshake (.userPass cred) (5 :: 2 :: rest2) = .ok rest2
      ∧ clientNegotiate (.userPass cred) (5 :: 2 :: rest2) = .error .notImplemented)
    ∧ (serverNegotiate .noAvailable (clientGreeting .noAvailable ++ rest) =
        ([5, 255], .error .unsupportAuth)
      ∧ clientNegotiate .noAvailable (5 :: 255 :: rest2) = .error .connectionRefused)
    ∧ (m.to_code ≠ m2.to_code →
        serverNegotiate m2 (clientGreeting m ++ rest) = ([], .error .unsupportAuth)
        ∧ clientNegotiate m [] = .error .unexpectedEof) := by
  refine ⟨?_, clientNegotiate_noAuth_cons rest, ⟨?_, ?_, ?_⟩, ⟨?_, ?_⟩, ?_⟩
  · simpa [clientGreeting, AuthMethod.to_code] using serverNegotiate_noAuth_cons rest
  · unfold serverNegotiate
    rw [show clientGreeting (.userPass cred) ++ rest = 5 :: 1 :: 2 :: rest from by
      simp [clientGreeting, AuthMethod.to_code, SOCKS_VER]]
    rw [show serverHandshake (.userPass cred) (5 :: 1 :: 2 :: rest) =
        .ok ([5, 2], rest) from by rw [serverHandshake_offered]; rfl]
    rfl
  · rw [clientHandshake_cons]
    rfl
  · unfold clientNegotiate
    rw [clientHandshake_cons]
    rfl
  · unfold serverNegotiate
    rw [show clientGreeting .noAvailable ++ rest = 5 :: 1 :: 255 :: rest from by
      simp [clientGreeting, AuthMethod.to_code, SOCKS_VER]]
    rw [show serverHandshake .noAvailable (5 :: 1 :: 255 :: rest) =
        .ok ([5, 255], rest) from by rw [serverHandshake_offered]; rfl]
    rfl
  · unfold clientNegotiate
    rw [clientHandshake_cons]
    rfl
  · intro hne
    constructor
    · unfold serverNegotiate
      rw [show clientGreeting m ++ rest = 5 :: 1 :: m.to_code :: rest from by
        simp [clientGreeting, SOCKS_VER]]
      rw [serverHandshake_offered, if_neg hne]
    · rfl

/-- C7 witness: the amended statement instantiated — `NoAuth` against
`NoAuth` completes both sides; `UserPass` against `UserPass` passes
the handshake and fails the authenticate step on both sides;
`NoneAvailable` refuses on the client during the handshake; `NoAuth`
offered against `UserPass` configured fails the server handshake with
no reply written. -/
theorem negotiation_agreement_witness :
    (serverNegotiate .noAuth (clientGreeting .noAuth ++ [9]) = ([5, 0], .ok [9]))
    ∧ (serverNegotiate (.userPass none)
        (clientGreeting (.userPass none) ++ []) = ([5, 2], .error .unsupportAuth))
    ∧ (clientNegotiate (.userPass none) (5 :: 2 :: [7]) = .error .notImplemented)
    ∧ (clientNegotiate .noAvailable (5 :: 255 :: []) = .error .connectionRefused)
    ∧ (serverNegotiate (.userPass none) (clientGreeting .noAuth ++ []) =
        ([], .error .unsupportAuth)) :=
  ⟨(negotiation_agreement .noAuth .noAuth none [9] []).1,
   (negotiation_agreement .noAuth .noAuth none [] []).2.2.1.1,
   (negotiation_agreement .noAuth .noAuth none [] [7]).2.2.1.2.2,
   (negotiation_agreement .noAuth .noAuth none [] []).2.2.2.1.2,
   ((negotiation_agreement .noAuth (.userPass none) none [] []).2.2.2.2
     (by decide)).1⟩

/-! ## C8 -/

/-- C8 counterexample: a method-selection reply choosing method `0x01`
(different from the offered `NoAuth`) makes the client handshake fail
with `ConnectionRefused` — raised by `AuthMethod::from_code` on the
unrecognized code — not with `ConnectionAborted` as the claim
states. -/
theorem unrecognized_method_gives_refused :
    clientHandshake .noAuth [5, 1] = .error .connectionRefused
    ∧ ClientErr.connectionRefused ≠ ClientErr.connectionAborted :=
  ⟨rfl, by decide⟩

/-- C8 amended: in the client handshake, a method-selection reply with
a wrong version byte fails with `ConnectionAborted`; a reply selecting
a method byte outside the recognized codes `0x00`, `0x02`, `0xFF`
fails with `ConnectionRefused` (from `AuthMethod::from_code`); a reply
selecting `0xFF` (NoneAvailable) fails with `ConnectionRefused`; and a
reply selecting a recognized method (`0x00` or `0x02`) different from
the offered one fails with `ConnectionAborted`. -/
theorem handshake_failure_kinds (m : AuthMethod) (b0 b1 : Nat) (rest : List Nat) :
    (b0 ≠ 5 → clientHandshake m (b0 :: b1 :: rest) = .error .connectionAborted)
    ∧ (¬(b1 = 0 ∨ b1 = 2 ∨ b1 = 255) →
        clientHandshake m (5 :: b1 :: rest) = .error .connectionRefused)
    ∧ (clientHandshake m (5 :: 255 :: rest) = .error .connectionRefused)
    ∧ ((b1 = 0 ∨ b1 = 2) → b1 ≠ m.to_code →
        clientHandshake m (5 :: b1 :: rest) = .error .connectionAborted) := by
  refine ⟨?_, ?_, ?_, ?_⟩
  · intro h
    rw [clientHandshake_cons, if_pos (by simp [SOCKS_VER, h])]
  · intro h
    rw [clientHandshake_cons, if_neg (by simp [SOCKS_VER])]
    unfold AuthMethod.from_code
    rw [if_neg (by omega), if_neg (by omega), if_neg (by omega)]
  · rw [clientHandshake_cons, if_neg (by simp [SOCKS_VER])]
    simp [AuthMethod.from_code]
  · intro hb h
    rw [clientHandshake_cons, if_neg (by simp [SOCKS_VER])]
    rcases hb with rfl | rfl
    · rw [show AuthMethod.from_code 0 = .ok .noAuth from rfl]
      dsimp only
      rw [if_pos (show AuthMethod.noAuth.to_code ≠ m.to_code from h)]
    · rw [show AuthMethod.from_code 2 = .ok (.userPass none) from rfl]
      dsimp only
      rw [if_pos (show (AuthMethod.userPass none).to_code ≠ m.to_code from h)]

/-- C8 witness: the amended failure kinds at concrete replies to a
NoAuth-offering client. -/
theorem handshake_failure_kinds_witness :
    clientHandshake .noAuth [4, 0] = .error .connectionAborted
    ∧ clientHandshake .noAuth [5, 3] = .error .connectionRefused
    ∧ clientHandshake .noAuth [5, 255] = .error .connectionRefused
    ∧ clientHandshake .noAuth [5, 2] = .error .connectionAborted :=
  ⟨(handshake_failure_kinds .noAuth 4 0 []).1 (by decide),
   (handshake_failure_kinds .noAuth 5 3 []).2.1 (by decide),
   (handshake_failure_kinds .noAuth 5 255 []).2.2.1,
   (handshake_failure_kinds .noAuth 5 2 []).2.2.2 (Or.inr rfl) (by decide)⟩

/-! ## C9 -/

/-- Characterization of `parse_dest` on a hostname destination as run
inside `PendingConnect::connect`: after the 3 header bytes and the
ATYP tag, the buffer holds 4 of its 261 bytes, so the length byte and
a hostname of up to 255 bytes always fit, but the final 2-byte port
write fits only when the hostname is at most 254 bytes. -/
theorem connectRequest_hostname (s : List Nat) :
    connectRequest (.hostnamePort s) =
      (match splitOnColon s with
       | [hostname, port] =>
         if hostname.length > 255 then .err .invalidInput
         else
           match parseU16 port with
           | none => .err .invalidInput
           | some p =>
             if hostname.length ≤ 254 then
               .ok ([0, 1, 0, 3, hostname.length] ++ hostname ++ u16be p)
             else .panic
       | _ => .err .invalidInput) := by
  unfold connectRequest buildConnectRequest parse_dest
  dsimp only
  rw [show Buffer.extend ⟨261, []⟩ [SOCKS_RSV, SOCKS_COMMAND_CONNECT, SOCKS_RSV] =
      some ⟨261, [0, 1, 0]⟩ from rfl]
  dsimp only
  rw [show Buffer.push ⟨261, [0, 1, 0]⟩ SOCKS_ADDR_DOMAINNAME =
      some ⟨261, [0, 1, 0, 3]⟩ from rfl]
  dsimp only
  rcases hsplit : splitOnColon s with _ | ⟨host, _ | ⟨port, _ | ⟨c, tl⟩⟩⟩
  · rfl
  · rfl
  · dsimp only
    by_cases hlong : host.length > 255
    · rw [if_pos hlong, if_pos hlong]
    · rw [if_neg hlong, if_neg hlong]
      rw [show Buffer.push ⟨261, [0, 1, 0, 3]⟩ host.length =
          some ⟨261, [0, 1, 0, 3, host.length]⟩ from rfl]
      dsimp only
      rw [show Buffer.extend ⟨261, [0, 1, 0, 3, host.length]⟩ host =
          some ⟨261, [0, 1, 0, 3, host.length] ++ host⟩ from by
        unfold Buffer.extend
        rw [if_pos (by simp only [List.length_cons, List.length_nil]; omega)]]
      dsimp only
      cases hpar : parseU16 port with
      | none => rfl
      | some p =>
        dsimp only
        by_cases hfit : host.length ≤ 254
        · rw [show Buffer.extend ⟨261, [0, 1, 0, 3, host.length] ++ host⟩ (u16be p) =
              some ⟨261, [0, 1, 0, 3, host.length] ++ host ++ u16be p⟩ from by
            unfold Buffer.extend
            rw [if_pos (by
              simp only [List.length_append, List.length_cons, List.length_nil, u16be]
              omega)]]
          dsimp only [Buffer.content]
          rw [if_pos hfit]
        · rw [show Buffer.extend ⟨261, [0, 1, 0, 3, host.length] ++ host⟩ (u16be p) =
              none from by
            unfold Buffer.extend
            rw [if_neg (by
              simp only [List.length_append, List.length_cons, List.length_nil, u16be]
              omega)]]
          dsimp only
          rw [if_neg hfit]
  · rfl

set_option maxRecDepth 8192 in
/-- C9 counterexample: the destination text ":1080" — an empty
hostname — is accepted and encoded (refuting "non-empty"), and a
255-byte hostname with a valid port ("bbb…b:81") is accepted by the
length validation but panics on the buffer overflow instead of failing
cleanly (refuting "succeeds … at most 255 bytes"). -/
theorem empty_hostname_accepted :
    connectRequest (.hostnamePort [0x3A, 0x31, 0x30, 0x38, 0x30]) =
      .ok [0, 1, 0, 3, 0, 4, 56]
    ∧ connectRequest (.hostnamePort (List.replicate 255 0x62 ++ [0x3A, 0x38, 0x31])) =
      .panic := by
  constructor
  · decide
  · decide

/-- C9 amended: encoding a `HostnamePort` destination succeeds exactly
when the text contains exactly one `:`, the hostname before it
(possibly empty) is at most 254 bytes, and the text after it parses as
a `u16` port (an optional leading `+`, then ASCII digits, value at
most 65535 -- a leading `-` is rejected for unsigned types); the
validation runs during serialization, before any bytes are written to
the connection.  "host:1080" encodes as (host, 1080); "host:port:extra",
"host" and "host:99999" still fail locally; but ":1080" (empty
hostname) is accepted, and a 255-byte hostname with a valid port
panics rather than failing. -/
theorem hostname_encode_iff (s : List Nat) :
    (∃ r, connectRequest (.hostnamePort s) = .ok r) ↔
      (∃ h p, splitOnColon s = [h, p] ∧ h.length ≤ 254 ∧ (parseU16 p).isSome = true) := by
  have key := connectRequest_hostname s
  rcases hsplit : splitOnColon s with _ | ⟨host, _ | ⟨port, _ | ⟨c, tl⟩⟩⟩ <;>
    rw [hsplit] at key <;> dsimp only at key
  · constructor
    · rintro ⟨r, hr⟩
      rw [key] at hr
      simp at hr
    · rintro ⟨h, p, hhp, -, -⟩
      simp at hhp
  · constructor
    · rintro ⟨r, hr⟩
      rw [key] at hr
      simp at hr
    · rintro ⟨h, p, hhp, -, -⟩
      simp at hhp
  · constructor
    · rintro ⟨r, hr⟩
      rw [key] at hr
      by_cases hlong : host.length > 255
      · rw [if_pos hlong] at hr
        simp at hr
      · rw [if_neg hlong] at hr
        cases hpar : parseU16 port with
        | none => rw [hpar] at hr; simp at hr
        | some p =>
          rw [hpar] at hr
          dsimp only at hr
          by_cases hfit : host.length ≤ 254
          · exact ⟨host, port, rfl, hfit, by rw [hpar]; rfl⟩
          · rw [if_neg hfit] at hr
            simp at hr
    · rintro ⟨h, p, hhp, hfit, hsome⟩
      simp only [List.cons.injEq, and_true] at hhp
      obtain ⟨rfl, rfl⟩ := hhp
      rw [key, if_neg (by omega)]
      obtain ⟨v, hv⟩ := Option.isSome_iff_exists.mp hsome
      rw [hv]
      dsimp only
      rw [if_pos hfit]
      exact ⟨_, rfl⟩
  · constructor
    · rintro ⟨r, hr⟩
      rw [key] at hr
      simp at hr
    · rintro ⟨h, p, hhp, -, -⟩
      simp at hhp

/-- C9 witness: the characterization applied to the text "a:80". -/
theorem hostname_encode_iff_witness :
    ∃ r, connectRequest (.hostnamePort [97, 58, 56, 48]) = .ok r :=
  (hostname_encode_iff [97, 58, 56, 48]).mpr
    ⟨[97], [56, 48], by decide, by decide, by decide⟩

/-! ## C10 -/

/-- C10: every command reply `handle_client` writes is exactly the
10-byte message `VER=0x05, REP, RSV=0x00, ATYP=0x01, BND.ADDR=0.0.0.0,
BND.PORT=0` — the fixed placeholder bound address — and the REP byte
is one of `0x00, 0x01, 0x03, 0x04, 0x07, 0x08`. -/
theorem server_reply_shape (auth : AuthMethod) (dns : Dns)
    (connectOk : SockAddr → Bool) (input : List Nat) (r : List Nat)
    (hr : (handleClient auth dns connectOk input).reply = some r) :
    ∃ k, (k = 0 ∨ k = 1 ∨ k = 3 ∨ k = 4 ∨ k = 7 ∨ k = 8) ∧
      r = [5, k, 0, 1, 0, 0, 0, 0, 0, 0] := by
  unfold handleClient at hr
  rcases hneg : serverNegotiate auth input with ⟨w, res⟩
  rw [hneg] at hr
  cases res with
  | error e => cases hr
  | ok rest =>
    dsimp only at hr
    unfold handleClientPostAuth at hr
    cases hcmd : handle_command dns rest with
    | error e =>
      rw [hcmd] at hr
      dsimp only at hr
      injection hr with hr
      refine ⟨errReplyCode e, ?_, by rw [← hr]; cases e <;> rfl⟩
      cases e <;> simp [errReplyCode, SocksError.toCode]
    | ok pair =>
      rw [hcmd] at hr
      dsimp only at hr
      by_cases hc : connectOk pair.1
      · rw [if_pos hc] at hr
        injection hr with hr
        exact ⟨0, Or.inl rfl, by rw [← hr]; rfl⟩
      · rw [if_neg hc] at hr
        injection hr with hr
        exact ⟨3, Or.inr (Or.inr (Or.inl rfl)), by rw [← hr]; rfl⟩

/-- C10 witness: the reply shape at a successful CONNECT run. -/
theorem server_reply_shape_witness :
    ∃ k, (k = 0 ∨ k = 1 ∨ k = 3 ∨ k = 4 ∨ k = 7 ∨ k = 8) ∧
      [5, 0, 0, 1, 0, 0, 0, 0, 0, 0] = [5, k, 0, 1, 0, 0, 0, 0, 0, 0] :=
  server_reply_shape .noAuth (fun _ _ => .error ()) (fun _ => true)
    [5, 1, 0, 5, 1, 0, 1, 1, 2, 3, 4, 0, 80] [5, 0, 0, 1, 0, 0, 0, 0, 0, 0] rfl

end Socks5
